import Mathlib

/-!
Shallow embedding of the core of `src/app.py` (a Flask/SocketIO noise
monitoring hub) and proofs about it.

Modelling conventions:
* Python floats are modelled by `PyFloat`: NaN, the two infinities, or an
  exact rational.  The only float operations the code performs on noise
  levels are ordered comparisons against the integer thresholds 70 and 85,
  for which this model is exact (every ordered comparison involving NaN is
  false, as in IEEE 754 / CPython).
* The SQLAlchemy session is modelled by explicit state passing: a `DB`
  value holds the committed rows; each handler returns the new committed
  state together with the list of SocketIO emissions it performed.
  `db.session.rollback()` corresponds to returning the original `DB`.
* `socketio.emit(ev, payload)` with no `room` argument broadcasts to every
  connected client; `emit(ev, payload, room=r)` inside a SocketIO handler
  targets room `r`; `emit(ev, payload)` inside a SocketIO handler targets
  only the originating connection.  Payload contents are elided; only the
  event name and the delivery target matter for the claims proved here.
* Fresh primary keys (`uuid4`) and `datetime.utcnow()` are passed in as
  explicit `newId` / `now` parameters.
-/

/-- A CPython float value: NaN, an infinity, or a finite value (finite
values are modelled exactly as rationals; the thresholds 70 and 85 and the
comparisons used by the code are exact under this model). -/
inductive PyFloat where
  | nan
  | posInf
  | negInf
  | fin (q : ℚ)
deriving DecidableEq

/-- Python `x <= c` for a float `x` and a numeric threshold `c`; every
ordered comparison involving NaN evaluates to false. -/
def PyFloat.le : PyFloat → ℚ → Bool
  | .nan, _ => false
  | .posInf, _ => false
  | .negInf, _ => true
  | .fin q, c => decide (q ≤ c)

/-- `get_noise_category` (src/app.py lines 22-29): categorise a decibel
level as safe, moderate or harmful. -/
def get_noise_category (noise_level : PyFloat) : String :=
  if noise_level.le 70 then "safe"
  else if noise_level.le 85 then "moderate"
  else "harmful"

/-- C3: the classifier maps level ≤ 70 to safe, 70 < level ≤ 85 to
moderate, level > 85 to harmful; in particular 70.0 is safe, 70.1 is
moderate, 85.0 is moderate and 85.1 is harmful. -/
theorem C3_classifier_thresholds (q : ℚ) :
    (q ≤ 70 → get_noise_category (.fin q) = "safe")
    ∧ (70 < q → q ≤ 85 → get_noise_category (.fin q) = "moderate")
    ∧ (85 < q → get_noise_category (.fin q) = "harmful")
    ∧ get_noise_category (.fin 70) = "safe"
    ∧ get_noise_category (.fin (701 / 10 : ℚ)) = "moderate"
    ∧ get_noise_category (.fin 85) = "moderate"
    ∧ get_noise_category (.fin (851 / 10 : ℚ)) = "harmful" := by
  refine ⟨?_, ?_, ?_, by norm_num [get_noise_category, PyFloat.le],
    by norm_num [get_noise_category, PyFloat.le],
    by norm_num [get_noise_category, PyFloat.le],
    by norm_num [get_noise_category, PyFloat.le]⟩
  · intro h
    simp [get_noise_category, PyFloat.le, h]
  · intro h1 h2
    simp [get_noise_category, PyFloat.le, h2, not_le.mpr h1]
  · intro h
    simp [get_noise_category, PyFloat.le, not_le.mpr h,
      not_le.mpr (lt_trans (by norm_num : (70 : ℚ) < 85) h)]

/-- Witness for C3: the three guarded cases applied at 60, 80 and 90. -/
theorem C3_classifier_thresholds_witness :
    get_noise_category (.fin 60) = "safe"
    ∧ get_noise_category (.fin 80) = "moderate"
    ∧ get_noise_category (.fin 90) = "harmful" :=
  ⟨(C3_classifier_thresholds 60).1 (by norm_num),
   (C3_classifier_thresholds 80).2.1 (by norm_num) (by norm_num),
   (C3_classifier_thresholds 90).2.2.1 (by norm_num)⟩

/-- C10: the classifier is total — every float, NaN and the infinities
included, gets exactly one of the three labels; NaN and +∞ fall through
both `<=` tests (ordered comparisons with NaN are false) and are labelled
harmful. -/
theorem C10_classifier_total (x : PyFloat) :
    (get_noise_category x = "safe" ∨ get_noise_category x = "moderate"
      ∨ get_noise_category x = "harmful")
    ∧ get_noise_category .nan = "harmful"
    ∧ get_noise_category .posInf = "harmful"
    ∧ PyFloat.le .nan 70 = false ∧ PyFloat.le .nan 85 = false := by
  refine ⟨?_, by decide, by decide, by decide, by decide⟩
  unfold get_noise_category
  split
  · exact Or.inl rfl
  · split
    · exact Or.inr (Or.inl rfl)
    · exact Or.inr (Or.inr rfl)

/-- The `Device` model (src/app.py lines 66-74).  `battery_level` is a
nullable integer column; timestamps are abstracted to naturals. -/
structure Device where
  id : String
  user_id : String
  device_name : String
  device_type : String
  battery_level : Option Int
  is_connected : Bool
  last_connected : Nat
deriving DecidableEq

/-- The `NoiseReading` model (src/app.py lines 58-64).  Note: it has NO
`device_id` column — its columns are exactly id, user_id, noise_level,
category, timestamp, location. -/
structure NoiseReading where
  id : String
  user_id : String
  noise_level : PyFloat
  category : String
  timestamp : Nat
  location : Option String
deriving DecidableEq

/-- The column attribute names of the `NoiseReading` model (src/app.py
lines 58-64).  The SQLAlchemy declarative constructor raises `TypeError`
when called with a keyword argument that is not an attribute of the
model class. -/
def noiseReadingColumns : List String :=
  ["id", "user_id", "noise_level", "category", "timestamp", "location"]

/-- The keyword arguments `handle_device_update` passes to the
`NoiseReading` constructor (src/app.py lines 612-617): user_id, device_id,
noise_level, category. -/
def noiseReadingUpdateKwargs : List String :=
  ["user_id", "device_id", "noise_level", "category"]

/-- Whether the SQLAlchemy declarative constructor accepts a keyword
list: every keyword must name a model attribute, else `TypeError`. -/
def noiseReadingCtorAccepts (kwargs : List String) : Bool :=
  kwargs.all (fun k => noiseReadingColumns.contains k)

/-- The committed database state. -/
structure DB where
  devices : List Device
  readings : List NoiseReading
deriving DecidableEq

/-- A SocketIO delivery target: a per-identity room, the originating
connection only (plain `emit` inside a handler), or every connected
client (`socketio.emit` with no room argument). -/
inductive EmitTarget where
  | room (identity : String)
  | originating
  | broadcastAll
deriving DecidableEq

/-- One SocketIO emission: event name and delivery target (payload
contents elided — only name and scope matter for the claims here). -/
structure Emission where
  event : String
  target : EmitTarget
deriving DecidableEq

/-- A live connection: its socket id and the identity it is bound to. -/
structure Conn where
  sid : String
  identity : String
deriving DecidableEq

/-- Whether the connection `c` receives emission `e`, given that the
handler that produced `e` was triggered from socket id `originSid`:
room emissions reach exactly the connections bound to that identity,
originating-only emissions reach exactly the sender, and global
emissions reach everyone. -/
def observes (originSid : String) (c : Conn) (e : Emission) : Bool :=
  match e.target with
  | .room r => c.identity == r
  | .originating => c.sid == originSid
  | .broadcastAll => true

/-- The JSON value found under a numeric field, as seen by `float(...)`:
either a value float() converts successfully (JSON numbers, and numeric
strings including "inf"/"nan"), or one where float() raises. -/
inductive RawValue where
  | num (x : PyFloat)
  | nonNumeric
deriving DecidableEq

/-- `float(v)`: returns the float, or `none` when Python would raise
ValueError/TypeError. -/
def floatOf : RawValue → Option PyFloat
  | .num x => some x
  | .nonNumeric => none

/-- Whether a raw value is a finite numeric value (float() succeeds and
the result is neither NaN nor an infinity). -/
def isFiniteNum : RawValue → Bool
  | .num (.fin _) => true
  | _ => false

/-- `Device.query.filter_by(id=did, user_id=uid).first()`. -/
def findDevice (db : DB) (did uid : String) : Option Device :=
  db.devices.find? (fun d => d.id == did && d.user_id == uid)

/-- Committing an ORM mutation of one device row: the row with that
primary key now holds the mutated attribute values. -/
def setDevice (db : DB) (d : Device) : DB :=
  { db with devices := db.devices.map (fun x => if x.id == d.id then d else x) }

/-- The payload of a `device_update` SocketIO message
(src/app.py line 590): optional deviceId, batteryLevel, noiseLevel. -/
structure UpdateMsg where
  deviceId : Option String
  batteryLevel : Option Int
  noiseLevel : Option RawValue
deriving DecidableEq

/-- The `error` emission produced by the except-branch of
`handle_device_update` (src/app.py line 631): flask_socketio `emit` with
no room goes to the originating connection only. -/
def errorEmit : Emission := { event := "error", target := .originating }

/-- Result of a SocketIO handler: the committed database afterwards and
the emissions performed. -/
structure SocketResult where
  db : DB
  emits : List Emission
deriving DecidableEq

/-- `handle_device_update` (src/app.py lines 589-631), the SocketIO
`device_update` handler.  `auth` is the bound identity of the connection
(`current_user`), or `none` when unauthenticated; `commitOk` models
whether `db.session.commit()` succeeds; `newId` / `now` stand for the
fresh uuid and `datetime.utcnow()`.

The flow mirrors the source line by line: unauthenticated → silent
return; missing deviceId → silent return; device not owned by the caller
→ silent return; then the pending session mutations (battery patch, and
— when noiseLevel is present — `float()` conversion followed by the
`NoiseReading(user_id=..., device_id=..., ...)` construction) run inside
the try block; any exception hits the except branch, which rolls the
session back and emits `error` to the originating connection; otherwise
the session is committed and `device_status` is emitted to the room of
the calling identity. -/
def handle_device_update (auth : Option String) (data : UpdateMsg)
    (db : DB) (commitOk : Bool) (newId : String) (now : Nat) : SocketResult :=
  match auth with
  | none => { db := db, emits := [] }
  | some uid =>
    match data.deviceId with
    | none => { db := db, emits := [] }
    | some did =>
      match findDevice db did uid with
      | none => { db := db, emits := [] }
      | some device =>
        let patched :=
          match data.batteryLevel with
          | some b => { device with battery_level := some b }
          | none => device
        match data.noiseLevel with
        | some raw =>
          match floatOf raw with
          | none => { db := db, emits := [errorEmit] }
          | some lv =>
            if noiseReadingCtorAccepts noiseReadingUpdateKwargs then
              -- never reached: "device_id" is not a NoiseReading column,
              -- so the constructor call raises TypeError
              let reading : NoiseReading :=
                { id := newId, user_id := uid, noise_level := lv,
                  category := get_noise_category lv, timestamp := now,
                  location := none }
              if commitOk then
                { db := { devices := (setDevice db patched).devices,
                          readings := db.readings ++ [reading] },
                  emits := [{ event := "device_status", target := .room uid }] }
              else { db := db, emits := [errorEmit] }
            else
              { db := db, emits := [errorEmit] }
        | none =>
          if commitOk then
            { db := setDevice db patched,
              emits := [{ event := "device_status", target := .room uid }] }
          else { db := db, emits := [errorEmit] }

/-- Body of a PATCH to `/api/devices/<id>/status` (src/app.py line 374):
optional isConnected and batteryLevel fields. -/
structure StatusPatch where
  isConnected : Option Bool
  batteryLevel : Option Int
deriving DecidableEq

/-- The field mutations of `update_device_status` (src/app.py lines
380-382): `is_connected` from `data.get('isConnected', device.is_connected)`
and `battery_level` only when the key is present.  No other attribute is
touched; in particular `last_connected` is not. -/
def applyStatusPatch (d : Device) (patch : StatusPatch) : Device :=
  let d1 := { d with is_connected := patch.isConnected.getD d.is_connected }
  match patch.batteryLevel with
  | some b => { d1 with battery_level := some b }
  | none => d1

/-- Result of an HTTP route: committed database, emissions, and the HTTP
status code of the response to the requester. -/
structure RouteResult where
  db : DB
  emits : List Emission
  status : Nat
deriving DecidableEq

/-- `update_device_status` (src/app.py lines 371-403): PATCH handler for
a device owned by the authenticated user.  Not-found → 404 response, no
mutation, no emission.  Otherwise the patch is applied and committed and
`device_status` is emitted by `socketio.emit` with NO room argument,
i.e. to every connected client. -/
def update_device_status (db : DB) (uid did : String)
    (patch : StatusPatch) : RouteResult :=
  match findDevice db did uid with
  | none => { db := db, emits := [], status := 404 }
  | some device =>
    { db := setDevice db (applyStatusPatch device patch),
      emits := [{ event := "device_status", target := .broadcastAll }],
      status := 200 }

/-- Body of a POST to `/api/devices` (src/app.py line 326): deviceName,
deviceType and batteryLevel are all read with mandatory indexing. -/
structure CreateDeviceData where
  deviceName : String
  deviceType : String
  batteryLevel : Int
deriving DecidableEq

/-- `create_device` (src/app.py lines 323-355): inserts a new device for
the authenticated user (`is_connected` defaults to true) and emits
`device_status` by `socketio.emit` with NO room argument, i.e. to every
connected client. -/
def create_device (db : DB) (uid : String) (data : CreateDeviceData)
    (newId : String) (now : Nat) : RouteResult :=
  let device : Device :=
    { id := newId, user_id := uid, device_name := data.deviceName,
      device_type := data.deviceType, battery_level := some data.batteryLevel,
      is_connected := true, last_connected := now }
  { db := { db with devices := db.devices ++ [device] },
    emits := [{ event := "device_status", target := .broadcastAll }],
    status := 200 }

/-- Body of a POST to `/api/noise-readings` (src/app.py line 259):
noiseLevel (converted by float()), category (stored verbatim), optional
location. -/
structure CreateReadingData where
  noiseLevel : RawValue
  category : String
  location : Option String
deriving DecidableEq

/-- `create_noise_reading` (src/app.py lines 256-286): builds a
NoiseReading whose `category` is taken directly from the request payload
(NOT derived from the level), commits it, and emits `noise_reading` by
`socketio.emit` with no room argument — to every connected client.
There is no try/except in this route: a float() failure propagates to
the 500 error handler, which rolls the session back. -/
def create_noise_reading (db : DB) (uid : String) (data : CreateReadingData)
    (newId : String) (now : Nat) : RouteResult :=
  match floatOf data.noiseLevel with
  | none => { db := db, emits := [], status := 500 }
  | some lv =>
    let reading : NoiseReading :=
      { id := newId, user_id := uid, noise_level := lv,
        category := data.category, timestamp := now,
        location := some (data.location.getD "Real-time monitoring") }
    { db := { db with readings := db.readings ++ [reading] },
      emits := [{ event := "noise_reading", target := .broadcastAll }],
      status := 200 }

/-- `disconnect_bluetooth_device` (src/app.py lines 233-253): marks the
device disconnected, sets `last_connected` to now, commits, and emits
`device_disconnected` to the room of the calling identity. -/
def disconnect_bluetooth_device (db : DB) (uid did : String)
    (now : Nat) : RouteResult :=
  match findDevice db did uid with
  | none => { db := db, emits := [], status := 404 }
  | some device =>
    { db := setDevice db
        { device with is_connected := false, last_connected := now },
      emits := [{ event := "device_disconnected", target := .room uid }],
      status := 200 }

/-- Body of a POST to `/api/bluetooth/connect` (src/app.py lines
202-212): deviceName mandatory, deviceType defaults to earbuds,
batteryLevel defaults to 100. -/
structure ConnectDeviceData where
  deviceName : String
  deviceType : Option String
  batteryLevel : Option Int
deriving DecidableEq

/-- `connect_bluetooth_device` (src/app.py lines 198-231): inserts a new
connected device and emits `device_connected` to the room of the calling
identity. -/
def connect_bluetooth_device (db : DB) (uid : String)
    (data : ConnectDeviceData) (newId : String) (now : Nat) : RouteResult :=
  let device : Device :=
    { id := newId, user_id := uid, device_name := data.deviceName,
      device_type := data.deviceType.getD "earbuds",
      battery_level := some (data.batteryLevel.getD 100),
      is_connected := true, last_connected := now }
  { db := { db with devices := db.devices ++ [device] },
    emits := [{ event := "device_connected", target := .room uid }],
    status := 200 }

/-- Fact used throughout: the keyword list `handle_device_update` passes
to the `NoiseReading` constructor contains `device_id`, which is not a
column of the model, so the constructor call raises `TypeError`. -/
lemma ctor_rejects : noiseReadingCtorAccepts noiseReadingUpdateKwargs = false := by
  decide

/- Concrete fixtures for the counterexample and witness theorems. -/

def uidU : String := "U"

def didD : String := "D"

def otherId : String := "X"

def freshId : String := "r1"

def uidA : String := "A"

def uidB : String := "B"

def sidA : String := "sa"

def sidB : String := "sb"

def devU : Device :=
  { id := didD, user_id := uidU, device_name := "Buds", device_type := "earbuds",
    battery_level := some 80, is_connected := true, last_connected := 7 }

def dbU : DB := { devices := [devU], readings := [] }

def emptyDB : DB := { devices := [], readings := [] }

/-- C1: the spec expects `device_update {deviceId: D, noiseLevel: 90.0}`
from an authenticated owner to persist a harmful NoiseReading and emit
`device_status` to the room of the calling identity; the code instead
always raises `TypeError` in `NoiseReading(user_id=..., device_id=..., ...)`
because the model has no `device_id` column, so the session is rolled
back (nothing persisted, no device_status) and an `error` is emitted to
the originating connection. -/
theorem C1_noise_update_errors :
    handle_device_update (some uidU)
      { deviceId := some didD, batteryLevel := none,
        noiseLevel := some (.num (.fin 90)) } dbU true freshId 5
      = { db := dbU, emits := [errorEmit] }
    ∧ noiseReadingCtorAccepts noiseReadingUpdateKwargs = false
    ∧ get_noise_category (.fin 90) = "harmful" := by
  decide

/-- C2 counterexample: POST /api/noise-readings with noiseLevel 90 and a
caller-chosen category of safe stores category safe, while the
single-sourced classifier maps 90 to harmful — the stored category is
independently settable by the caller and differs from the classifier. -/
theorem C2_counterexample :
    ((create_noise_reading emptyDB uidU
        { noiseLevel := .num (.fin 90), category := "safe", location := none }
        freshId 0).db.readings.map
      (fun r => (r.category, get_noise_category r.noise_level)))
      = [("safe", "harmful")]
    ∧ ("safe" : String) ≠ "harmful" := by
  decide

/-- C4 counterexample: `create_device` emits `device_status` with no room
argument, so a connection bound to a different identity B observes the
device_status event concerning the identity A. -/
theorem C4_counterexample :
    (create_device emptyDB uidA
        { deviceName := "Buds", deviceType := "earbuds", batteryLevel := 50 }
        freshId 0).emits
      = [{ event := "device_status", target := .broadcastAll }]
    ∧ observes sidA { sid := sidB, identity := uidB }
        { event := "device_status", target := .broadcastAll } = true
    ∧ uidA ≠ uidB := by
  decide

/-- C8 counterexample: a socket `device_update` naming a device id that
the calling identity does not own returns silently — no state change,
but also NO report of any kind to the originating connection. -/
theorem C8_counterexample :
    handle_device_update (some uidU)
      { deviceId := some otherId, batteryLevel := some 42, noiseLevel := none }
      dbU true freshId 5
      = { db := dbU, emits := [] }
    ∧ findDevice dbU otherId uidU = none := by
  decide

/-- C9 counterexample: a successful PATCH that changes the battery level
of a device leaves `last_connected` exactly as it was — the route never
touches that column. -/
theorem C9_counterexample :
    ((update_device_status dbU uidU didD
        { isConnected := none, batteryLevel := some 42 }).db.devices.map
      (fun d => (d.battery_level, d.last_connected)))
      = [(some 42, devU.last_connected)]
    ∧ devU.battery_level ≠ some 42
    ∧ (update_device_status dbU uidU didD
        { isConnected := none, batteryLevel := some 42 }).status = 200 := by
  decide

/-- C5: whenever the commit inside the socket `device_update` handler
fails, the whole transaction is rolled back — the committed database is
unchanged (no NoiseReading row, no Device field), nothing is broadcast,
and the only emission possible is an `error` to the originating
connection.  Stated for every message, so for every combination of
supplied fields. -/
theorem C5_commit_failure_atomic (auth : Option String) (data : UpdateMsg)
    (db : DB) (newId : String) (now : Nat) :
    (handle_device_update auth data db false newId now).db = db
    ∧ (handle_device_update auth data db false newId now).emits.all
        (fun e => decide (e.event = "error" ∧ e.target = .originating)) = true := by
  obtain ⟨d0, b0, n0⟩ := data
  cases auth with
  | none => exact ⟨rfl, rfl⟩
  | some uid =>
    cases d0 with
    | none => exact ⟨rfl, rfl⟩
    | some did =>
      cases hf : findDevice db did uid with
      | none => simp [handle_device_update, hf]
      | some device =>
        cases n0 with
        | none =>
          cases b0 <;> simp [handle_device_update, hf, errorEmit]
        | some raw =>
          cases raw with
          | nonNumeric =>
            cases b0 <;> simp [handle_device_update, hf, floatOf, errorEmit]
          | num x =>
            cases b0 <;>
              simp [handle_device_update, hf, floatOf, ctor_rejects, errorEmit]

/-- C7: an ingested raw noise level that is not a finite numeric value
never makes it into the store: the message fails, the committed database
is unchanged, nothing is broadcast, and anything that is emitted is an
`error` to the originating connection only.  (Non-numeric values fail
the float() conversion; NaN and the infinities pass float() — the code
has no explicit finiteness check — and then fail inside the try block
when the NoiseReading constructor rejects the device_id keyword, with
the same observable outcome.) -/
theorem C7_nonfinite_never_persisted (auth : Option String) (data : UpdateMsg)
    (db : DB) (ck : Bool) (newId : String) (now : Nat) (raw : RawValue)
    (hp : data.noiseLevel = some raw) (hf : isFiniteNum raw = false) :
    (handle_device_update auth data db ck newId now).db = db
    ∧ (handle_device_update auth data db ck newId now).emits.all
        (fun e => decide (e.event = "error" ∧ e.target = .originating)) = true := by
  obtain ⟨d0, b0, n0⟩ := data
  simp only at hp
  subst hp
  cases auth with
  | none => exact ⟨rfl, rfl⟩
  | some uid =>
    cases d0 with
    | none => exact ⟨rfl, rfl⟩
    | some did =>
      cases hfd : findDevice db did uid with
      | none => simp [handle_device_update, hfd]
      | some device =>
        cases raw with
        | nonNumeric =>
          cases b0 <;> simp [handle_device_update, hfd, floatOf, errorEmit]
        | num x =>
          cases x with
          | fin q => simp [isFiniteNum] at hf
          | nan =>
            cases b0 <;>
              simp [handle_device_update, hfd, floatOf, ctor_rejects, errorEmit]
          | posInf =>
            cases b0 <;>
              simp [handle_device_update, hfd, floatOf, ctor_rejects, errorEmit]
          | negInf =>
            cases b0 <;>
              simp [handle_device_update, hfd, floatOf, ctor_rejects, errorEmit]

def msgInf : UpdateMsg :=
  { deviceId := some didD, batteryLevel := none,
    noiseLevel := some (.num .posInf) }

/-- Witness for C7: an infinite noise level from the owner of device D
leaves the store unchanged and at most reports an error to the sender. -/
theorem C7_nonfinite_never_persisted_witness :
    (handle_device_update (some uidU) msgInf dbU true freshId 5).db = dbU
    ∧ (handle_device_update (some uidU) msgInf dbU true freshId 5).emits.all
        (fun e => decide (e.event = "error" ∧ e.target = .originating)) = true :=
  C7_nonfinite_never_persisted (some uidU) msgInf dbU true freshId 5
    (.num .posInf) rfl rfl

/-- C6: a patch containing only `batteryLevel` changes only the battery
level of the targeted device (on both the PATCH route and the socket
handler); device name, type, last_connected are never mutated by any
patch, and connectivity / battery are untouched whenever absent from the
patch. -/
theorem C6_partial_patch_frame (d : Device) (b : Int) (patch : StatusPatch)
    (db : DB) (uid did : String) (newId : String) (now : Nat)
    (hfind : findDevice db did uid = some d) :
    applyStatusPatch d { isConnected := none, batteryLevel := some b }
      = { d with battery_level := some b }
    ∧ (applyStatusPatch d patch).device_name = d.device_name
    ∧ (applyStatusPatch d patch).device_type = d.device_type
    ∧ (applyStatusPatch d patch).last_connected = d.last_connected
    ∧ (patch.isConnected = none →
        (applyStatusPatch d patch).is_connected = d.is_connected)
    ∧ (patch.batteryLevel = none →
        (applyStatusPatch d patch).battery_level = d.battery_level)
    ∧ (handle_device_update (some uid)
          { deviceId := some did, batteryLevel := some b, noiseLevel := none }
          db true newId now).db
        = setDevice db { d with battery_level := some b } := by
  obtain ⟨c0, b0⟩ := patch
  refine ⟨rfl, ?_, ?_, ?_, ?_, ?_, ?_⟩
  · cases c0 <;> cases b0 <;> rfl
  · cases c0 <;> cases b0 <;> rfl
  · cases c0 <;> cases b0 <;> rfl
  · intro h
    simp only at h
    subst h
    cases b0 <;> rfl
  · intro h
    simp only at h
    subst h
    cases c0 <;> simp [applyStatusPatch]
  · simp [handle_device_update, hfind]

/-- Witness for C6: the battery-only patch on the concrete device D owned
by U leaves `last_connected` untouched. -/
theorem C6_partial_patch_frame_witness :
    (applyStatusPatch devU { isConnected := none, batteryLevel := some 42 }).last_connected
      = devU.last_connected :=
  (C6_partial_patch_frame devU 42 { isConnected := none, batteryLevel := some 42 }
    dbU uidU didD freshId 5 (by decide)).2.2.2.1

/-- C2 (amended): the stored category is NOT always classifier-derived.
The HTTP create-noise-reading route persists the caller-supplied
category field verbatim next to the converted level, with no call to the
classifier; only the socket device_update path computes the category via
`get_noise_category`, and that path currently persists nothing (its
NoiseReading construction raises, see C1). -/
theorem C2_category_caller_supplied (db : DB) (uid : String)
    (data : CreateReadingData) (newId : String) (now : Nat) (lv : PyFloat)
    (h : floatOf data.noiseLevel = some lv) :
    ((create_noise_reading db uid data newId now).db.readings.map
        (fun r => (r.category, r.noise_level)))
      = db.readings.map (fun r => (r.category, r.noise_level))
        ++ [(data.category, lv)] := by
  unfold create_noise_reading
  rw [h]
  simp

/-- Witness for C2 (amended): the concrete safe-labelled level-90 request
stores the pair (safe, 90). -/
theorem C2_category_caller_supplied_witness :
    ((create_noise_reading emptyDB uidU
        { noiseLevel := .num (.fin 90), category := "safe", location := none }
        freshId 0).db.readings.map (fun r => (r.category, r.noise_level)))
      = emptyDB.readings.map (fun r => (r.category, r.noise_level))
        ++ [("safe", .fin 90)] :=
  C2_category_caller_supplied emptyDB uidU
    { noiseLevel := .num (.fin 90), category := "safe", location := none }
    freshId 0 (.fin 90) rfl

/-- C8 (amended): a mutation targeting a device not owned by the calling
identity changes no state on either path; the PATCH route reports it as
a 404 NotFound response, but the socket device_update handler drops the
message silently, with no report to the originating connection. -/
theorem C8_not_owned_no_mutation (db : DB) (uid did : String)
    (patch : StatusPatch) (data : UpdateMsg) (ck : Bool)
    (newId : String) (now : Nat)
    (h : findDevice db did uid = none) :
    update_device_status db uid did patch
      = { db := db, emits := [], status := 404 }
    ∧ (data.deviceId = some did →
        handle_device_update (some uid) data db ck newId now
          = { db := db, emits := [] }) := by
  constructor
  · simp [update_device_status, h]
  · intro hd
    obtain ⟨d0, b0, n0⟩ := data
    simp only at hd
    subst hd
    simp [handle_device_update, h]

/-- Witness for C8 (amended): the concrete unowned device id X. -/
theorem C8_not_owned_no_mutation_witness :
    handle_device_update (some uidU)
      { deviceId := some otherId, batteryLevel := none, noiseLevel := none }
      dbU true freshId 5
      = { db := dbU, emits := [] } :=
  (C8_not_owned_no_mutation dbU uidU otherId
    { isConnected := none, batteryLevel := none }
    { deviceId := some otherId, batteryLevel := none, noiseLevel := none }
    true freshId 5 (by decide)).2 rfl

/-- C9 (amended): `last_connected` is updated only by the Bluetooth
disconnect route, which stores the current time while marking the device
disconnected; successful patches through the device-status route and the
socket device_update handler leave `last_connected` unchanged even when
they change battery or connectivity. -/
theorem C9_last_connected_only_on_disconnect (d : Device)
    (patch : StatusPatch) (db : DB) (uid did : String) (b : Int)
    (newId : String) (now : Nat)
    (hfind : findDevice db did uid = some d) :
    (applyStatusPatch d patch).last_connected = d.last_connected
    ∧ (disconnect_bluetooth_device db uid did now).db
        = setDevice db { d with is_connected := false, last_connected := now }
    ∧ (handle_device_update (some uid)
          { deviceId := some did, batteryLevel := some b, noiseLevel := none }
          db true newId now).db
        = setDevice db { d with battery_level := some b } := by
  refine ⟨?_, ?_, ?_⟩
  · obtain ⟨c0, b0⟩ := patch
    cases c0 <;> cases b0 <;> rfl
  · simp [disconnect_bluetooth_device, hfind]
  · simp [handle_device_update, hfind]

/-- Witness for C9 (amended): the concrete device D of identity U. -/
theorem C9_last_connected_only_on_disconnect_witness :
    (disconnect_bluetooth_device dbU uidU didD 9).db
      = setDevice dbU { devU with is_connected := false, last_connected := 9 } :=
  (C9_last_connected_only_on_disconnect devU
    { isConnected := none, batteryLevel := none } dbU uidU didD 42
    freshId 9 (by decide)).2.1

/-- C4 (amended): room isolation holds for the room-targeted emissions —
`device_connected`, `device_disconnected`, and the `device_status` sent
by the socket device_update handler are never observed by a connection
bound to a different identity (and error emissions reach only the
originating connection).  But besides the global `noise_reading` event,
the `device_status` events emitted by the HTTP create-device and
update-device-status routes are also global: every connected client,
whatever identity it is bound to, observes them. -/
theorem C4_room_isolation_amended (uid os : String) (c : Conn)
    (data : UpdateMsg) (db : DB) (ck : Bool) (newId : String) (now : Nat)
    (cd : ConnectDeviceData) (rd : CreateReadingData) (dd : CreateDeviceData)
    (patch : StatusPatch) (did : String)
    (hid : c.identity ≠ uid) (hsid : c.sid ≠ os) :
    (handle_device_update (some uid) data db ck newId now).emits.all
        (fun e => !(observes os c e)) = true
    ∧ (disconnect_bluetooth_device db uid did now).emits.all
        (fun e => !(observes os c e)) = true
    ∧ (connect_bluetooth_device db uid cd newId now).emits.all
        (fun e => !(observes os c e)) = true
    ∧ (create_noise_reading db uid rd newId now).emits.all
        (fun e => observes os c e) = true
    ∧ (create_device db uid dd newId now).emits.all
        (fun e => observes os c e) = true
    ∧ (update_device_status db uid did patch).emits.all
        (fun e => observes os c e) = true := by
  have h1 : (c.identity == uid) = false := by
    simp only [beq_eq_false_iff_ne, ne_eq]
    exact hid
  have h2 : (c.sid == os) = false := by
    simp only [beq_eq_false_iff_ne, ne_eq]
    exact hsid
  refine ⟨?_, ?_, ?_, ?_, ?_, ?_⟩
  · obtain ⟨d0, b0, n0⟩ := data
    cases d0 with
    | none => rfl
    | some did2 =>
      cases hfd : findDevice db did2 uid with
      | none => simp [handle_device_update, hfd]
      | some device =>
        cases n0 with
        | none =>
          cases b0 <;> cases ck <;>
            simp [handle_device_update, hfd, errorEmit, observes, h1, h2]
        | some raw =>
          cases raw with
          | nonNumeric =>
            cases b0 <;> cases ck <;>
              simp [handle_device_update, hfd, floatOf, errorEmit, observes,
                h1, h2]
          | num x =>
            cases b0 <;> cases ck <;>
              simp [handle_device_update, hfd, floatOf, ctor_rejects,
                errorEmit, observes, h1, h2]
  · cases hfd : findDevice db did uid with
    | none => simp [disconnect_bluetooth_device, hfd]
    | some device =>
      simp [disconnect_bluetooth_device, hfd, observes, h1]
  · simp [connect_bluetooth_device, observes, h1]
  · cases hfl : floatOf rd.noiseLevel with
    | none => simp [create_noise_reading, hfl]
    | some lv => simp [create_noise_reading, hfl, observes]
  · simp [create_device, observes]
  · cases hfd : findDevice db did uid with
    | none => simp [update_device_status, hfd]
    | some device =>
      simp [update_device_status, hfd, observes]

/-- Witness for C4 (amended): a connection of identity B never sees the
room-scoped device_status produced by a device_update from identity U. -/
theorem C4_room_isolation_amended_witness :
    (handle_device_update (some uidU)
        { deviceId := some didD, batteryLevel := some 42, noiseLevel := none }
        dbU true freshId 5).emits.all
      (fun e => !(observes sidA { sid := sidB, identity := uidB } e)) = true :=
  (C4_room_isolation_amended uidU sidA { sid := sidB, identity := uidB }
    { deviceId := some didD, batteryLevel := some 42, noiseLevel := none }
    dbU true freshId 5
    { deviceName := "Buds", deviceType := none, batteryLevel := none }
    { noiseLevel := .num (.fin 50), category := "safe", location := none }
    { deviceName := "Buds", deviceType := "earbuds", batteryLevel := 50 }
    { isConnected := none, batteryLevel := none } didD
    (by decide) (by decide)).1
